import Mathlib

/-!
Verification development for the delegate-based orchestration engine of
`dbus-systemcalc-py` (`delegates.py`).

Shallow embedding conventions:
* D-Bus values that may be absent are `Option` values; voltages, currents and
  powers are rationals (`ℚ`), so every comparison the code performs is exact
  and decidable.
* Each delegate's mutable attributes become a Lean structure; each method
  becomes a pure function from the old state (plus the values it reads from
  the bus that tick) to the new state, together with a record of the bus
  writes it performed.
* The single-threaded event loop serialises every callback, so a method call
  is one atomic state transition.
-/

/-- Python `service.split('.')[2]`: the third dot-separated component of a
D-Bus service name, `none` when the name has fewer than three components. -/
def serviceType (service : String) : Option String :=
  (service.splitOn ".").get? 2

/-- Python `min(l)` on a non-empty list (`0` as a junk value on `[]`,
which the code never evaluates: it only takes `min` of a buffer that holds
at least 20 samples). -/
def listMin : List ℚ → ℚ
  | [] => 0
  | x :: xs => xs.foldl min x

/-- Python `max(l)` on a non-empty list (`0` as a junk value on `[]`). -/
def listMax : List ℚ → ℚ
  | [] => 0
  | x :: xs => xs.foldl max x

/-!
## HubTypeSelect

`HubTypeSelect.update_values` reads two inverter paths through the monitor
(`/Hub4/AcPowerSetpoint`, `/Hub1/ChargeVoltage`) and four totals from the
`newvalues` snapshot (`/Dc/Pv/Power`, `/Ac/PvOnOutput/Total/Power`,
`/Ac/PvOnGrid/Total/Power`, `/Ac/PvOnGenset/Total/Power`).  The delegate is
stateless; we pass the six readings directly.  When no vebus service exists
the monitor lookups return `None`, which is subsumed by the two inverter
arguments being `none`.
-/

/-- The value stored into `newvalues['/Hub']` by `HubTypeSelect.update_values`
(lines 84-99 of `delegates.py`): an if/elif chain over `!= None` tests. -/
def HubTypeSelect.update_values
    (hub4AcPowerSetpoint hub1ChargeVoltage dcPvPower
     acPvOnOutputPower acPvOnGridPower acPvOnGensetPower : Option ℚ) : Option ℤ :=
  if hub4AcPowerSetpoint ≠ none then some 4
  else if hub1ChargeVoltage ≠ none ∨ dcPvPower ≠ none then some 1
  else if acPvOnOutputPower ≠ none then some 2
  else if acPvOnGridPower ≠ none ∨ acPvOnGensetPower ≠ none then some 3
  else none

/-- Modelled from the spec: "evaluate in strict priority order — (a) Hub-4 AC
power setpoint present → 4; else (b) Hub-1 charge-voltage present OR any DC PV
power present → 1; else (c) AC PV-on-output total power present → 2; else
(d) AC PV-on-grid or PV-on-genset total power present → 3; else undefined",
phrased over bare presence flags. -/
def specHubClassification (hub4 hub1 dcPv acOut acGrid acGenset : Bool) : Option ℤ :=
  if hub4 then some 4
  else if hub1 || dcPv then some 1
  else if acOut then some 2
  else if acGrid || acGenset then some 3
  else none

/-- C3: on every snapshot the classifier publishes exactly the value of the
first matching rule of the spec's priority chain 4 > 1 > 2 > 3 over the six
presence flags; in particular it publishes exactly one classification or none,
and a later rule never overrides an earlier match. -/
theorem HubTypeSelect.update_values_eq_spec
    (hub4 hub1 dcPv acOut acGrid acGenset : Option ℚ) :
    HubTypeSelect.update_values hub4 hub1 dcPv acOut acGrid acGenset =
      specHubClassification hub4.isSome hub1.isSome dcPv.isSome
        acOut.isSome acGrid.isSome acGenset.isSome := by
  cases hub4 <;> cases hub1 <;> cases dcPv <;> cases acOut <;>
    cases acGrid <;> cases acGenset <;>
    simp [HubTypeSelect.update_values, specHubClassification]

/-!
## LgCircuitBreakerDetect

Mutable attributes: `_lg_battery` (service name or `None`) and
`_lg_voltage_buffer` (a list, existing exactly while a battery is tracked),
plus the published item `/Dc/Battery/Alarms/CircuitBreakerTripped`.  The code
maintains battery-and-buffer jointly (`device_added` sets both, so does
`device_removed`), so we model them as one `Option` of a pair.
-/

structure LgState where
  /-- `_lg_battery` with its `_lg_voltage_buffer`; `none` when no LG battery
  is tracked (then the code holds `_lg_battery = None` and the buffer is
  `None` or unset, never read). -/
  lg : Option (String × List ℚ)
  /-- the value of the published path `/Dc/Battery/Alarms/CircuitBreakerTripped`. -/
  alarm : Option ℤ
deriving DecidableEq, Repr

/-- The bus readings one `update_values` tick can perform. `batteryVoltage` is
read unguarded by the code (a missing value would raise a `TypeError` in the
multiplication `0.9 * battery_voltage`), so it is modelled as plain `ℚ`.
`modeItemPresent` models `get_item(vebus_path, '/Mode') is not None`. -/
structure LgTick where
  vebusService : Option String
  batteryCurrent : Option ℚ
  vebusVoltage : Option ℚ
  batteryVoltage : ℚ
  modeItemPresent : Bool
deriving DecidableEq, Repr

/-- The outcome of one `update_values` call: the new delegate state and the
value written to the inverter's `/Mode` item, when any. -/
structure LgResult where
  state : LgState
  modeWrite : Option ℤ
deriving DecidableEq, Repr

/-- State after `set_sources` (lines 329-331): the alarm path is created with
value `None`, and `__init__` left `_lg_battery = None`. -/
def LgCircuitBreakerDetect.initial : LgState := ⟨none, none⟩

/-- Lines 333-339, `device_added`: when a battery service with
`/ProductId == 0xB004` appears, start tracking it with an empty buffer and
publish alarm value `0`. -/
def LgCircuitBreakerDetect.device_added
    (st : LgState) (service : String) (productId : Option ℤ) : LgState :=
  if serviceType service = some "battery" ∧ productId = some 0xB004 then
    ⟨some (service, []), some 0⟩
  else st

/-- Lines 341-346, `device_removed`: when the tracked battery disappears,
drop battery and buffer and publish alarm value `None`. -/
def LgCircuitBreakerDetect.device_removed (st : LgState) (service : String) : LgState :=
  match st.lg with
  | some (bat, _) => if service = bat then ⟨none, none⟩ else st
  | none => st

/-- Lines 366-378: the min/max evaluation run on buffer `buf` that
`update_values` reaches once at least 20 samples exist.  On a violated bound
with the `/Mode` item present: publish alarm `2`, write `4` to `/Mode`, clear
the buffer; with the item absent only an error is logged (alarm and buffer
untouched). -/
def LgCircuitBreakerDetect.evaluate
    (bat : String) (alarm : Option ℤ) (buf : List ℚ) (t : LgTick) : LgResult :=
  if listMin buf < 9/10 * t.batteryVoltage ∨ listMax buf > 11/10 * t.batteryVoltage then
    if t.modeItemPresent then ⟨⟨some (bat, []), some 2⟩, some 4⟩
    else ⟨⟨some (bat, buf), alarm⟩, none⟩
  else ⟨⟨some (bat, buf), alarm⟩, none⟩

/-- Lines 348-378, `update_values`: return untouched unless both an LG
battery and a vebus service are present; clear the buffer when the current
reading is `None` or has magnitude `> 0.01`; otherwise append the vebus DC
voltage (returning untouched when that reading is `None`), keep only the last
40 samples when the append exceeded 40, return when fewer than 20 samples
exist, and otherwise run the min/max evaluation. -/
def LgCircuitBreakerDetect.update_values (st : LgState) (t : LgTick) : LgResult :=
  match st.lg, t.vebusService with
  | none, _ => ⟨st, none⟩
  | some _, none => ⟨st, none⟩
  | some (bat, buf), some _ =>
    match t.batteryCurrent with
    | none => ⟨⟨some (bat, []), st.alarm⟩, none⟩
    | some current =>
      if |current| > 1/100 then ⟨⟨some (bat, []), st.alarm⟩, none⟩
      else
        match t.vebusVoltage with
        | none => ⟨st, none⟩
        | some v =>
          let buf1 := buf ++ [v]
          if buf1.length > 40 then
            LgCircuitBreakerDetect.evaluate bat st.alarm
              (buf1.drop (buf1.length - 40)) t
          else if buf1.length < 20 then ⟨⟨some (bat, buf1), st.alarm⟩, none⟩
          else LgCircuitBreakerDetect.evaluate bat st.alarm buf1 t

/-- The buffer the min/max evaluation sees: the appended buffer, trimmed to
its most recent 40 samples when the append exceeded 40. -/
def lgTrim (l : List ℚ) : List ℚ :=
  if l.length > 40 then l.drop (l.length - 40) else l

/-- An `evaluate` call either fires (alarm `2`, mode write `4`, buffer
cleared) or leaves alarm and buffer untouched and writes nothing. -/
lemma LgCircuitBreakerDetect.evaluate_cases
    (bat : String) (alarm : Option ℤ) (buf : List ℚ) (t : LgTick) :
    LgCircuitBreakerDetect.evaluate bat alarm buf t = ⟨⟨some (bat, []), some 2⟩, some 4⟩ ∨
    LgCircuitBreakerDetect.evaluate bat alarm buf t = ⟨⟨some (bat, buf), alarm⟩, none⟩ := by
  unfold LgCircuitBreakerDetect.evaluate
  split_ifs <;> simp

/-- C1: with an LG battery tracked, a vebus service present, a rest current
(magnitude at most 0.01), the vebus voltage readable and the inverter's
`/Mode` item present, `update_values` fires the circuit-breaker alarm
(publishes alarm `2`, writes `4` to `/Mode`, clears the window) exactly when
the window reaches at least 20 samples after the append and the (trimmed)
window's minimum drops below 90% or its maximum rises above 110% of the
battery's own reported voltage. -/
theorem LgCircuitBreakerDetect.alarm_fires_iff
    (st : LgState) (t : LgTick) (bat vs : String) (buf : List ℚ) (current v : ℚ)
    (hlg : st.lg = some (bat, buf))
    (hvs : t.vebusService = some vs)
    (hcur : t.batteryCurrent = some current)
    (hrest : |current| ≤ 1/100)
    (hvv : t.vebusVoltage = some v)
    (hmode : t.modeItemPresent = true) :
    ((LgCircuitBreakerDetect.update_values st t).state.alarm = some 2 ∧
      (LgCircuitBreakerDetect.update_values st t).modeWrite = some 4 ∧
      (LgCircuitBreakerDetect.update_values st t).state.lg = some (bat, [])) ↔
    (20 ≤ (buf ++ [v]).length ∧
      (listMin (lgTrim (buf ++ [v])) < 9/10 * t.batteryVoltage ∨
        listMax (lgTrim (buf ++ [v])) > 11/10 * t.batteryVoltage)) := by
  have hc : ¬ ((1:ℚ)/100 < |current|) := not_lt.mpr hrest
  cases st with | mk lg alarm =>
  cases t with | mk vbs bc vv bv mp =>
  dsimp only at hlg hvs hcur hvv hmode ⊢
  subst hlg; subst hvs; subst hcur; subst hvv; subst hmode
  simp only [LgCircuitBreakerDetect.update_values, lgTrim]
  rw [if_neg hc]
  simp only [LgCircuitBreakerDetect.evaluate]
  split_ifs with h40 hcond h20 hcond2
  · simp only [List.length_append, List.length_singleton] at h40
    simp at hcond ⊢
    exact ⟨by omega, hcond⟩
  · simp at hcond ⊢
    exact fun _ => hcond
  · simp only [List.length_append, List.length_singleton] at h20 ⊢
    simp
    omega
  · simp only [List.length_append, List.length_singleton] at h40 h20 ⊢
    simp [hcond2]
    omega
  · simp only [List.length_append, List.length_singleton] at hcond2 ⊢
    simp [hcond2]

/-- Length of the trimmed buffer: `40` once the raw buffer exceeds 40,
otherwise the raw length. -/
lemma lgTrim_length (l : List ℚ) : (lgTrim l).length = if l.length > 40 then 40 else l.length := by
  unfold lgTrim
  split_ifs with h
  · simp only [List.length_drop]
    omega
  · rfl

/-- Exhaustive description of one `update_values` call: either nothing is
touched, or an LG battery is tracked and the call cleared the buffer keeping
the alarm, fired the alarm, or stored the appended-and-trimmed buffer keeping
the alarm. -/
lemma LgCircuitBreakerDetect.update_values_shape (st : LgState) (t : LgTick) :
    LgCircuitBreakerDetect.update_values st t = ⟨st, none⟩ ∨
    ∃ bat buf, st.lg = some (bat, buf) ∧
      (LgCircuitBreakerDetect.update_values st t = ⟨⟨some (bat, []), st.alarm⟩, none⟩ ∨
       LgCircuitBreakerDetect.update_values st t = ⟨⟨some (bat, []), some 2⟩, some 4⟩ ∨
       ∃ v, t.vebusVoltage = some v ∧
         LgCircuitBreakerDetect.update_values st t =
           ⟨⟨some (bat, lgTrim (buf ++ [v])), st.alarm⟩, none⟩) := by
  obtain ⟨lg, alarm⟩ := st
  obtain ⟨vbs, bc, vv, bv, mp⟩ := t
  rcases lg with _ | ⟨bat, buf⟩
  · exact Or.inl (by simp [LgCircuitBreakerDetect.update_values])
  rcases vbs with _ | vs
  · exact Or.inl (by simp [LgCircuitBreakerDetect.update_values])
  rcases bc with _ | current
  · exact Or.inr ⟨bat, buf, rfl, Or.inl (by simp [LgCircuitBreakerDetect.update_values])⟩
  by_cases habs : |current| > (1:ℚ)/100
  · refine Or.inr ⟨bat, buf, rfl, Or.inl ?_⟩
    simp only [LgCircuitBreakerDetect.update_values]
    rw [if_pos habs]
  rcases vv with _ | v
  · refine Or.inl ?_
    simp only [LgCircuitBreakerDetect.update_values]
    rw [if_neg habs]
  refine Or.inr ⟨bat, buf, rfl, ?_⟩
  by_cases h40 : (buf ++ [v]).length > 40
  · have hred : LgCircuitBreakerDetect.update_values ⟨some (bat, buf), alarm⟩
        ⟨some vs, some current, some v, bv, mp⟩ =
        LgCircuitBreakerDetect.evaluate bat alarm
          ((buf ++ [v]).drop ((buf ++ [v]).length - 40))
          ⟨some vs, some current, some v, bv, mp⟩ := by
      simp only [LgCircuitBreakerDetect.update_values]
      rw [if_neg habs, if_pos h40]
    have htr : lgTrim (buf ++ [v]) = (buf ++ [v]).drop ((buf ++ [v]).length - 40) := by
      unfold lgTrim
      rw [if_pos h40]
    rcases LgCircuitBreakerDetect.evaluate_cases bat alarm
        ((buf ++ [v]).drop ((buf ++ [v]).length - 40))
        ⟨some vs, some current, some v, bv, mp⟩ with hev | hev
    · exact Or.inr (Or.inl (by rw [hred, hev]))
    · exact Or.inr (Or.inr ⟨v, rfl, by rw [hred, hev, htr]⟩)
  by_cases h20 : (buf ++ [v]).length < 20
  · have hred : LgCircuitBreakerDetect.update_values ⟨some (bat, buf), alarm⟩
        ⟨some vs, some current, some v, bv, mp⟩ =
        ⟨⟨some (bat, buf ++ [v]), alarm⟩, none⟩ := by
      simp only [LgCircuitBreakerDetect.update_values]
      rw [if_neg habs, if_neg h40, if_pos h20]
    have htr : lgTrim (buf ++ [v]) = buf ++ [v] := by
      unfold lgTrim
      rw [if_neg h40]
    exact Or.inr (Or.inr ⟨v, rfl, by rw [hred, htr]⟩)
  · have hred : LgCircuitBreakerDetect.update_values ⟨some (bat, buf), alarm⟩
        ⟨some vs, some current, some v, bv, mp⟩ =
        LgCircuitBreakerDetect.evaluate bat alarm (buf ++ [v])
          ⟨some vs, some current, some v, bv, mp⟩ := by
      simp only [LgCircuitBreakerDetect.update_values]
      rw [if_neg habs, if_neg h40, if_neg h20]
    have htr : lgTrim (buf ++ [v]) = buf ++ [v] := by
      unfold lgTrim
      rw [if_neg h40]
    rcases LgCircuitBreakerDetect.evaluate_cases bat alarm (buf ++ [v])
        ⟨some vs, some current, some v, bv, mp⟩ with hev | hev
    · exact Or.inr (Or.inl (by rw [hred, hev]))
    · exact Or.inr (Or.inr ⟨v, rfl, by rw [hred, hev, htr]⟩)

/-- C5: the voltage window holds at most 40 samples at every call boundary:
whenever the window held at most 40 samples before an `update_values` call,
it holds at most 40 samples after it (an append may transiently reach 41
samples, but the buffer is trimmed to its most recent 40 before the min/max
evaluation runs and before it is stored back). -/
theorem LgCircuitBreakerDetect.window_bounded
    (st : LgState) (t : LgTick)
    (hbound : ∀ bat buf, st.lg = some (bat, buf) → buf.length ≤ 40) :
    ∀ bat buf,
      (LgCircuitBreakerDetect.update_values st t).state.lg = some (bat, buf) →
        buf.length ≤ 40 := by
  intro bat' buf' h
  rcases LgCircuitBreakerDetect.update_values_shape st t with
    heq | ⟨bat, buf, hlg, heq | heq | ⟨v, hv, heq⟩⟩
  · rw [heq] at h
    exact hbound bat' buf' h
  · rw [heq] at h
    simp at h
    obtain ⟨rfl, rfl⟩ := h
    simp
  · rw [heq] at h
    simp at h
    obtain ⟨rfl, rfl⟩ := h
    simp
  · rw [heq] at h
    simp at h
    obtain ⟨rfl, rfl⟩ := h
    have hb := hbound bat buf hlg
    rw [lgTrim_length]
    split_ifs <;> omega

/-- C6: with an LG battery tracked and a vebus service present, a tick whose
battery-current reading is missing or exceeds 0.01 in magnitude leaves the
window empty, appends nothing, publishes nothing and writes nothing: the
whole call reduces to clearing the buffer. -/
theorem LgCircuitBreakerDetect.current_clears_window
    (st : LgState) (t : LgTick) (bat vs : String) (buf : List ℚ)
    (hlg : st.lg = some (bat, buf))
    (hvs : t.vebusService = some vs)
    (hcur : t.batteryCurrent = none ∨
      ∃ i, t.batteryCurrent = some i ∧ |i| > (1:ℚ)/100) :
    LgCircuitBreakerDetect.update_values st t = ⟨⟨some (bat, []), st.alarm⟩, none⟩ := by
  obtain ⟨lg, alarm⟩ := st
  obtain ⟨vbs, bc, vv, bv, mp⟩ := t
  dsimp only at hlg hvs ⊢
  subst hlg
  subst hvs
  rcases hcur with hbc | ⟨i, hbc, habs⟩
  · dsimp only at hbc
    subst hbc
    simp [LgCircuitBreakerDetect.update_values]
  · dsimp only at hbc
    subst hbc
    simp only [LgCircuitBreakerDetect.update_values]
    rw [if_pos habs]

/-- Correspondence invariant of C10: the published circuit-breaker alarm is
non-`None` exactly while an LG battery is tracked. -/
def LgAlarmTracksBattery (st : LgState) : Prop := st.alarm.isSome = st.lg.isSome

/-- C10: the alarm path starts out `None` with no battery tracked, is set to
`0` whenever an LG battery (ProductId 0xB004) appears, is reset to `None`
when that battery disappears, and the tracking correspondence
`LgAlarmTracksBattery` is preserved by `device_added`, `device_removed` and
`update_values`. -/
theorem LgCircuitBreakerDetect.alarm_tracks_battery
    (st : LgState) (service : String) (productId : Option ℤ) (t : LgTick)
    (h : LgAlarmTracksBattery st) :
    LgAlarmTracksBattery LgCircuitBreakerDetect.initial ∧
    LgAlarmTracksBattery (LgCircuitBreakerDetect.device_added st service productId) ∧
    LgAlarmTracksBattery (LgCircuitBreakerDetect.device_removed st service) ∧
    LgAlarmTracksBattery (LgCircuitBreakerDetect.update_values st t).state ∧
    (serviceType service = some "battery" ∧ productId = some 0xB004 →
      (LgCircuitBreakerDetect.device_added st service productId).alarm = some 0) ∧
    (∀ bat buf, st.lg = some (bat, buf) →
      (LgCircuitBreakerDetect.device_removed st bat).alarm = none) := by
  refine ⟨rfl, ?_, ?_, ?_, ?_, ?_⟩
  · unfold LgCircuitBreakerDetect.device_added
    split_ifs with hmatch
    · rfl
    · exact h
  · rcases hst : st.lg with _ | ⟨bat, buf⟩
    · simp only [LgCircuitBreakerDetect.device_removed, hst]
      exact h
    · simp only [LgCircuitBreakerDetect.device_removed, hst]
      split_ifs with hsrv
      · rfl
      · exact h
  · rcases LgCircuitBreakerDetect.update_values_shape st t with
      heq | ⟨bat, buf, hlg, heq | heq | ⟨v, hv, heq⟩⟩ <;> rw [heq]
    · exact h
    · unfold LgAlarmTracksBattery at h ⊢
      simp only [hlg] at h ⊢
      simpa using h
    · unfold LgAlarmTracksBattery
      simp
    · unfold LgAlarmTracksBattery at h ⊢
      simp only [hlg] at h ⊢
      simpa using h
  · intro hmatch
    unfold LgCircuitBreakerDetect.device_added
    rw [if_pos hmatch]
  · intro bat buf hlg
    simp only [LgCircuitBreakerDetect.device_removed, hlg]
    simp

/-- A concrete Safety Monitor state used as witness input: an LG battery
tracked with 19 samples of 50 V in the window and alarm value 0. -/
def lgW : LgState :=
  ⟨some ("com.victronenergy.battery.ttyO2", List.replicate 19 50), some 0⟩

/-- A concrete rest-current tick used as witness input. -/
def lgTickW : LgTick :=
  ⟨some "com.victronenergy.vebus.ttyO1", some 0, some 50, 50, true⟩

/-- A concrete tick whose battery current exceeds the 0.01 A rest
threshold. -/
def lgTickHighCurrent : LgTick :=
  ⟨some "com.victronenergy.vebus.ttyO1", some 1, some 50, 50, true⟩

/-- Witness for C1 at a concrete input. -/
theorem LgCircuitBreakerDetect.alarm_fires_iff_witness :
    lgW.lg = some ("com.victronenergy.battery.ttyO2", List.replicate 19 50) ∧
    lgTickW.vebusService = some "com.victronenergy.vebus.ttyO1" ∧
    lgTickW.batteryCurrent = some 0 ∧
    |(0:ℚ)| ≤ 1/100 ∧
    lgTickW.vebusVoltage = some 50 ∧
    lgTickW.modeItemPresent = true ∧
    (((LgCircuitBreakerDetect.update_values lgW lgTickW).state.alarm = some 2 ∧
      (LgCircuitBreakerDetect.update_values lgW lgTickW).modeWrite = some 4 ∧
      (LgCircuitBreakerDetect.update_values lgW lgTickW).state.lg =
        some ("com.victronenergy.battery.ttyO2", [])) ↔
    (20 ≤ (List.replicate 19 (50:ℚ) ++ [50]).length ∧
      (listMin (lgTrim (List.replicate 19 (50:ℚ) ++ [50])) < 9/10 * lgTickW.batteryVoltage ∨
        listMax (lgTrim (List.replicate 19 (50:ℚ) ++ [50])) > 11/10 * lgTickW.batteryVoltage))) :=
  ⟨rfl, rfl, rfl, by norm_num, rfl, rfl,
    LgCircuitBreakerDetect.alarm_fires_iff lgW lgTickW
      "com.victronenergy.battery.ttyO2" "com.victronenergy.vebus.ttyO1"
      (List.replicate 19 50) 0 50 rfl rfl rfl (by norm_num) rfl rfl⟩

set_option maxRecDepth 4000 in
/-- Witness for C5 at a concrete input. -/
theorem LgCircuitBreakerDetect.window_bounded_witness :
    (∀ bat buf, lgW.lg = some (bat, buf) → buf.length ≤ 40) ∧
    (LgCircuitBreakerDetect.update_values lgW lgTickW).state.lg =
      some ("com.victronenergy.battery.ttyO2", List.replicate 19 (50:ℚ) ++ [50]) ∧
    (List.replicate 19 (50:ℚ) ++ [50]).length ≤ 40 := by
  have hb : ∀ bat buf, lgW.lg = some (bat, buf) → buf.length ≤ 40 := by
    intro bat buf h
    simp [lgW] at h
    rcases h with ⟨-, rfl⟩
    simp
  have habs : ¬ (|(0:ℚ)| > 1/100) := by norm_num
  have h40 : ¬ ((List.replicate 19 (50:ℚ) ++ [50]).length > 40) := by simp
  have h20 : ¬ ((List.replicate 19 (50:ℚ) ++ [50]).length < 20) := by simp
  have hmin : listMin (List.replicate 19 (50:ℚ) ++ [50]) = 50 := by decide
  have hmax : listMax (List.replicate 19 (50:ℚ) ++ [50]) = 50 := by decide
  have hcond : ¬ (listMin (List.replicate 19 (50:ℚ) ++ [50]) < 9/10 * lgTickW.batteryVoltage ∨
      listMax (List.replicate 19 (50:ℚ) ++ [50]) > 11/10 * lgTickW.batteryVoltage) := by
    rw [hmin, hmax]
    simp only [lgTickW]
    norm_num
  have hred : LgCircuitBreakerDetect.update_values lgW lgTickW =
      LgCircuitBreakerDetect.evaluate "com.victronenergy.battery.ttyO2" (some 0)
        (List.replicate 19 (50:ℚ) ++ [50]) lgTickW := by
    simp only [lgW, lgTickW, LgCircuitBreakerDetect.update_values]
    rw [if_neg habs, if_neg h40, if_neg h20]
  have heq : (LgCircuitBreakerDetect.update_values lgW lgTickW).state.lg =
      some ("com.victronenergy.battery.ttyO2", List.replicate 19 (50:ℚ) ++ [50]) := by
    rw [hred]
    unfold LgCircuitBreakerDetect.evaluate
    rw [if_neg hcond]
  exact ⟨hb, heq, LgCircuitBreakerDetect.window_bounded lgW lgTickW hb _ _ heq⟩

/-- Witness for C6 at a concrete input. -/
theorem LgCircuitBreakerDetect.current_clears_window_witness :
    lgW.lg = some ("com.victronenergy.battery.ttyO2", List.replicate 19 (50:ℚ)) ∧
    lgTickHighCurrent.vebusService = some "com.victronenergy.vebus.ttyO1" ∧
    (lgTickHighCurrent.batteryCurrent = none ∨
      ∃ i, lgTickHighCurrent.batteryCurrent = some i ∧ |i| > (1:ℚ)/100) ∧
    LgCircuitBreakerDetect.update_values lgW lgTickHighCurrent =
      ⟨⟨some ("com.victronenergy.battery.ttyO2", []), lgW.alarm⟩, none⟩ :=
  ⟨rfl, rfl, Or.inr ⟨1, rfl, by norm_num⟩,
    LgCircuitBreakerDetect.current_clears_window lgW lgTickHighCurrent
      "com.victronenergy.battery.ttyO2" "com.victronenergy.vebus.ttyO1"
      (List.replicate 19 50) rfl rfl (Or.inr ⟨1, rfl, by norm_num⟩)⟩

/-- Witness for C10 at a concrete input. -/
theorem LgCircuitBreakerDetect.alarm_tracks_battery_witness :
    LgAlarmTracksBattery lgW ∧
    (LgAlarmTracksBattery LgCircuitBreakerDetect.initial ∧
     LgAlarmTracksBattery
       (LgCircuitBreakerDetect.device_added lgW "com.victronenergy.battery.ttyO3"
         (some 0xB004)) ∧
     LgAlarmTracksBattery
       (LgCircuitBreakerDetect.device_removed lgW "com.victronenergy.battery.ttyO3") ∧
     LgAlarmTracksBattery (LgCircuitBreakerDetect.update_values lgW lgTickW).state ∧
     (serviceType "com.victronenergy.battery.ttyO3" = some "battery" ∧
        (some 0xB004 : Option ℤ) = some 0xB004 →
       (LgCircuitBreakerDetect.device_added lgW "com.victronenergy.battery.ttyO3"
         (some 0xB004)).alarm = some 0) ∧
     (∀ bat buf, lgW.lg = some (bat, buf) →
       (LgCircuitBreakerDetect.device_removed lgW bat).alarm = none)) :=
  ⟨rfl,
    LgCircuitBreakerDetect.alarm_tracks_battery lgW "com.victronenergy.battery.ttyO3"
      (some 0xB004) lgTickW rfl⟩

/-!
## ServiceSupervisor

Mutable attributes (lines 381-436): `_supervised` and `_busy`, both Python
sets of service names, modelled as `Finset String`.  One 60-second pass
(`_process_supervised`) adds every supervised service to the busy set and
issues its probe back-to-back; since the event loop serialises callbacks, no
completion can run inside the pass, so the pass's effect on the busy set is
the union with the supervised set.  The `GetConnectionUnixProcessID` lookup of
the failure handler is passed in as `pid` (`none` covers both a `None` reply
and a lookup that raised, which the code catches).
-/

structure SupervisorState where
  supervised : Finset String
  busy : Finset String
deriving DecidableEq

/-- State after `__init__` (lines 382-386): both sets empty. -/
def ServiceSupervisor.initial : SupervisorState := ⟨∅, ∅⟩

/-- Lines 393-396, `device_added`: batteries and solar chargers are added to
the supervised set. -/
def ServiceSupervisor.device_added (st : SupervisorState) (service : String) : SupervisorState :=
  if serviceType service = some "battery" ∨ serviceType service = some "solarcharger" then
    ⟨insert service st.supervised, st.busy⟩
  else st

/-- Lines 398-400, `device_removed`: the service is discarded from both
sets. -/
def ServiceSupervisor.device_removed (st : SupervisorState) (service : String) : SupervisorState :=
  ⟨st.supervised.erase service, st.busy.erase service⟩

/-- Lines 402-403, `is_busy`. -/
def ServiceSupervisor.is_busy (st : SupervisorState) (service : String) : Bool :=
  decide (service ∈ st.busy)

/-- Lines 405-418, `_process_supervised`: every supervised service is marked
busy and probed asynchronously. -/
def ServiceSupervisor.process_supervised (st : SupervisorState) : SupervisorState :=
  ⟨st.supervised, st.busy ∪ st.supervised⟩

/-- Lines 420-421, `_supervise_success`: the probed service is discarded from
the busy set. -/
def ServiceSupervisor.supervise_success (st : SupervisorState) (service : String) : SupervisorState :=
  ⟨st.supervised, st.busy.erase service⟩

/-- The outcome of one `_supervise_failed` call: the new state and the pid a
SIGKILL was issued for, when any. -/
structure SuperviseFailedResult where
  state : SupervisorState
  killedPid : Option ℤ
deriving DecidableEq

/-- Lines 423-436, `_supervise_failed`: discard the service from the busy
set; ignore any error other than `NoReply`; on `NoReply`, resolve the owning
pid and kill it only when the lookup produced a value greater than 1. -/
def ServiceSupervisor.supervise_failed (st : SupervisorState) (service errorName : String)
    (pid : Option ℤ) : SuperviseFailedResult :=
  let st1 : SupervisorState := ⟨st.supervised, st.busy.erase service⟩
  if errorName ≠ "org.freedesktop.DBus.Error.NoReply" then ⟨st1, none⟩
  else
    match pid with
    | none => ⟨st1, none⟩
    | some p => if p > 1 then ⟨st1, some p⟩ else ⟨st1, none⟩

/-- C2: a probe failure always clears the busy flag and leaves the
supervised set alone, and a kill is issued exactly when the failure reason is
the `NoReply` timeout and the resolved pid is greater than 1. -/
theorem ServiceSupervisor.kill_iff_noreply_and_pid
    (st : SupervisorState) (service errorName : String) (pid : Option ℤ) :
    (ServiceSupervisor.supervise_failed st service errorName pid).state =
      ⟨st.supervised, st.busy.erase service⟩ ∧
    ((ServiceSupervisor.supervise_failed st service errorName pid).killedPid ≠ none ↔
      (errorName = "org.freedesktop.DBus.Error.NoReply" ∧ ∃ p, pid = some p ∧ 1 < p)) := by
  unfold ServiceSupervisor.supervise_failed
  by_cases he : errorName = "org.freedesktop.DBus.Error.NoReply"
  · rcases pid with _ | p
    · simp [he]
    · by_cases hp : (1:ℤ) < p
      · simp [he, hp]
      · simp [he, hp]
  · simp [he]

/-- C4: a service belonging to the supervised set is busy from the moment the
supervision pass issues its probe until that probe's success or failure
callback runs, each of which clears the flag. -/
theorem ServiceSupervisor.busy_until_completion
    (st : SupervisorState) (service errorName : String) (pid : Option ℤ)
    (h : service ∈ st.supervised) :
    ServiceSupervisor.is_busy (ServiceSupervisor.process_supervised st) service = true ∧
    ServiceSupervisor.is_busy
      (ServiceSupervisor.supervise_success (ServiceSupervisor.process_supervised st) service)
      service = false ∧
    ServiceSupervisor.is_busy
      (ServiceSupervisor.supervise_failed (ServiceSupervisor.process_supervised st)
        service errorName pid).state service = false := by
  refine ⟨?_, ?_, ?_⟩
  · simp [ServiceSupervisor.is_busy, ServiceSupervisor.process_supervised, h]
  · simp [ServiceSupervisor.is_busy, ServiceSupervisor.supervise_success]
  · have hfail : (ServiceSupervisor.supervise_failed (ServiceSupervisor.process_supervised st)
        service errorName pid).state =
        ⟨(ServiceSupervisor.process_supervised st).supervised,
          (ServiceSupervisor.process_supervised st).busy.erase service⟩ := by
      unfold ServiceSupervisor.supervise_failed
      rcases pid with _ | p <;> dsimp only <;> split_ifs <;> rfl
    rw [hfail]
    simp [ServiceSupervisor.is_busy]

/-- A concrete supervisor state used as witness input. -/
def supW : SupervisorState := ⟨{"com.victronenergy.solarcharger.ttyO4"}, ∅⟩

/-- Witness for C4 at a concrete input. -/
theorem ServiceSupervisor.busy_until_completion_witness :
    "com.victronenergy.solarcharger.ttyO4" ∈ supW.supervised ∧
    (ServiceSupervisor.is_busy (ServiceSupervisor.process_supervised supW)
        "com.victronenergy.solarcharger.ttyO4" = true ∧
     ServiceSupervisor.is_busy
       (ServiceSupervisor.supervise_success (ServiceSupervisor.process_supervised supW)
         "com.victronenergy.solarcharger.ttyO4")
       "com.victronenergy.solarcharger.ttyO4" = false ∧
     ServiceSupervisor.is_busy
       (ServiceSupervisor.supervise_failed (ServiceSupervisor.process_supervised supW)
         "com.victronenergy.solarcharger.ttyO4" "org.freedesktop.DBus.Error.NoReply"
         (some 1234)).state "com.victronenergy.solarcharger.ttyO4" = false) :=
  ⟨by simp [supW],
    ServiceSupervisor.busy_until_completion supW "com.victronenergy.solarcharger.ttyO4"
      "org.freedesktop.DBus.Error.NoReply" (some 1234) (by simp [supW])⟩

/-- C9: the busy set stays inside the supervised set across every supervisor
operation, `device_added` only grows the supervised set without touching the
busy set, and a removed service is no longer busy. -/
theorem ServiceSupervisor.busy_subset_supervised
    (st : SupervisorState) (service errorName : String) (pid : Option ℤ)
    (h : st.busy ⊆ st.supervised) :
    ServiceSupervisor.initial.busy ⊆ ServiceSupervisor.initial.supervised ∧
    (ServiceSupervisor.device_added st service).busy ⊆
      (ServiceSupervisor.device_added st service).supervised ∧
    (ServiceSupervisor.device_added st service).busy = st.busy ∧
    st.supervised ⊆ (ServiceSupervisor.device_added st service).supervised ∧
    (ServiceSupervisor.device_removed st service).busy ⊆
      (ServiceSupervisor.device_removed st service).supervised ∧
    (ServiceSupervisor.process_supervised st).busy ⊆
      (ServiceSupervisor.process_supervised st).supervised ∧
    (ServiceSupervisor.supervise_success st service).busy ⊆
      (ServiceSupervisor.supervise_success st service).supervised ∧
    (ServiceSupervisor.supervise_failed st service errorName pid).state.busy ⊆
      (ServiceSupervisor.supervise_failed st service errorName pid).state.supervised ∧
    ServiceSupervisor.is_busy (ServiceSupervisor.device_removed st service) service = false := by
  have hfail : (ServiceSupervisor.supervise_failed st service errorName pid).state =
      ⟨st.supervised, st.busy.erase service⟩ := by
    unfold ServiceSupervisor.supervise_failed
    rcases pid with _ | p <;> dsimp only <;> split_ifs <;> rfl
  refine ⟨?_, ?_, ?_, ?_, ?_, ?_, ?_, ?_, ?_⟩
  · simp [ServiceSupervisor.initial]
  · unfold ServiceSupervisor.device_added
    split_ifs
    · exact h.trans (Finset.subset_insert _ _)
    · exact h
  · unfold ServiceSupervisor.device_added
    split_ifs <;> rfl
  · unfold ServiceSupervisor.device_added
    split_ifs
    · exact Finset.subset_insert _ _
    · exact Finset.Subset.refl _
  · exact Finset.erase_subset_erase _ h
  · exact Finset.union_subset h (Finset.Subset.refl _)
  · exact (Finset.erase_subset _ _).trans h
  · rw [hfail]
    exact (Finset.erase_subset _ _).trans h
  · simp [ServiceSupervisor.is_busy, ServiceSupervisor.device_removed]

/-- A second concrete supervisor state (one service busy) used as witness
input. -/
def supBusyW : SupervisorState :=
  ⟨{"com.victronenergy.solarcharger.ttyO4"}, {"com.victronenergy.solarcharger.ttyO4"}⟩

/-- Witness for C9 at a concrete input. -/
theorem ServiceSupervisor.busy_subset_supervised_witness :
    supBusyW.busy ⊆ supBusyW.supervised ∧
    (ServiceSupervisor.initial.busy ⊆ ServiceSupervisor.initial.supervised ∧
     (ServiceSupervisor.device_added supBusyW "com.victronenergy.battery.ttyO2").busy ⊆
       (ServiceSupervisor.device_added supBusyW "com.victronenergy.battery.ttyO2").supervised ∧
     (ServiceSupervisor.device_added supBusyW "com.victronenergy.battery.ttyO2").busy =
       supBusyW.busy ∧
     supBusyW.supervised ⊆
       (ServiceSupervisor.device_added supBusyW "com.victronenergy.battery.ttyO2").supervised ∧
     (ServiceSupervisor.device_removed supBusyW "com.victronenergy.battery.ttyO2").busy ⊆
       (ServiceSupervisor.device_removed supBusyW "com.victronenergy.battery.ttyO2").supervised ∧
     (ServiceSupervisor.process_supervised supBusyW).busy ⊆
       (ServiceSupervisor.process_supervised supBusyW).supervised ∧
     (ServiceSupervisor.supervise_success supBusyW "com.victronenergy.battery.ttyO2").busy ⊆
       (ServiceSupervisor.supervise_success supBusyW "com.victronenergy.battery.ttyO2").supervised ∧
     (ServiceSupervisor.supervise_failed supBusyW "com.victronenergy.battery.ttyO2"
         "org.freedesktop.DBus.Error.NoReply" (some 1234)).state.busy ⊆
       (ServiceSupervisor.supervise_failed supBusyW "com.victronenergy.battery.ttyO2"
         "org.freedesktop.DBus.Error.NoReply" (some 1234)).state.supervised ∧
     ServiceSupervisor.is_busy
       (ServiceSupervisor.device_removed supBusyW "com.victronenergy.battery.ttyO2")
       "com.victronenergy.battery.ttyO2" = false) :=
  ⟨by simp [supBusyW],
    ServiceSupervisor.busy_subset_supervised supBusyW "com.victronenergy.battery.ttyO2"
      "org.freedesktop.DBus.Error.NoReply" (some 1234) (by simp [supBusyW])⟩

/-!
## Hub1Bridge

Mutable attributes (lines 102-131): `_solarchargers` (a Python list, appended
on add, `list.remove`d — first occurrence — on removal) and `_timer` (a
gobject source id or `None`).  `_update_solarchargers` only writes to the
chargers' bus items and never touches these attributes, so it does not appear
in the state transition.  Fresh gobject source ids are modelled by a
counter. -/

structure Hub1BridgeState where
  solarchargers : List String
  timer : Option ℕ
  nextTimerId : ℕ
deriving DecidableEq, Repr

/-- State after `__init__` (lines 103-106). -/
def Hub1Bridge.initial : Hub1BridgeState := ⟨[], none, 0⟩

/-- Lines 115-124, `device_added`: non-solarchargers are ignored; a charger
is appended and, when no timer exists yet, the 10-second repeating timer is
created. -/
def Hub1Bridge.device_added (st : Hub1BridgeState) (service : String) : Hub1BridgeState :=
  if serviceType service ≠ some "solarcharger" then st
  else
    match st.timer with
    | none => ⟨st.solarchargers ++ [service], some st.nextTimerId, st.nextTimerId + 1⟩
    | some _ => ⟨st.solarchargers ++ [service], st.timer, st.nextTimerId⟩

/-- Lines 126-131, `device_removed`: a known charger is removed (first
occurrence, as Python `list.remove`); when the list became empty and a timer
exists, the timer is cancelled. -/
def Hub1Bridge.device_removed (st : Hub1BridgeState) (service : String) : Hub1BridgeState :=
  if service ∈ st.solarchargers then
    let chargers := st.solarchargers.erase service
    if chargers.length = 0 ∧ st.timer ≠ none then
      ⟨chargers, none, st.nextTimerId⟩
    else
      ⟨chargers, st.timer, st.nextTimerId⟩
  else st

/-- Equivalence of C7: the 10-second repeating timer exists exactly while at
least one solar charger is known. -/
def Hub1TimerInv (st : Hub1BridgeState) : Prop := st.timer.isSome ↔ st.solarchargers ≠ []

/-- C7: the timer-exists-iff-chargers-known equivalence holds in the initial
state and is preserved by every `device_added` and `device_removed` call: the
timer is created when the first charger is added and cancelled exactly when
the last known charger is removed. -/
theorem Hub1Bridge.timer_iff_chargers
    (st : Hub1BridgeState) (service : String)
    (h : Hub1TimerInv st) :
    Hub1TimerInv Hub1Bridge.initial ∧
    Hub1TimerInv (Hub1Bridge.device_added st service) ∧
    Hub1TimerInv (Hub1Bridge.device_removed st service) := by
  refine ⟨by simp [Hub1TimerInv, Hub1Bridge.initial], ?_, ?_⟩
  · unfold Hub1Bridge.device_added
    split_ifs with hsrv
    · exact h
    · rcases ht : st.timer with _ | tid <;> simp [Hub1TimerInv]
  · unfold Hub1Bridge.device_removed
    split_ifs with hmem
    · dsimp only
      have hne : st.solarchargers ≠ [] := List.ne_nil_of_mem hmem
      have htimer : st.timer.isSome := h.mpr hne
      have htne : st.timer ≠ none := Option.isSome_iff_ne_none.mp htimer
      by_cases hlen : (st.solarchargers.erase service).length = 0
      · rw [if_pos ⟨hlen, htne⟩]
        simp [Hub1TimerInv, List.length_eq_zero.mp hlen]
      · rw [if_neg (fun hc => hlen hc.1)]
        have hene : st.solarchargers.erase service ≠ [] := fun hl => hlen (by simp [hl])
        simp [Hub1TimerInv, htimer, hene]
    · exact h

/-- A concrete bridge state (one charger known, timer running) used as
witness input. -/
def hub1W : Hub1BridgeState := ⟨["com.victronenergy.solarcharger.ttyO4"], some 0, 1⟩

/-- Witness for C7 at a concrete input. -/
theorem Hub1Bridge.timer_iff_chargers_witness :
    Hub1TimerInv hub1W ∧
    (Hub1TimerInv Hub1Bridge.initial ∧
     Hub1TimerInv (Hub1Bridge.device_added hub1W "com.victronenergy.solarcharger.ttyO5") ∧
     Hub1TimerInv (Hub1Bridge.device_removed hub1W "com.victronenergy.solarcharger.ttyO5")) :=
  ⟨by simp [Hub1TimerInv, hub1W],
    Hub1Bridge.timer_iff_chargers hub1W "com.victronenergy.solarcharger.ttyO5"
      (by simp [Hub1TimerInv, hub1W])⟩

/-!
## BuzzerControl

Mutable attributes (lines 284-321): `_buzzer_on` and `_timer` (a gobject
source id or `None`), plus the hardware file.  To state that no timers are
duplicated or orphaned, the model also tracks the multiset of source ids
currently scheduled in the gobject loop (`activeTimers`, with a counter for
fresh ids) and the last token written to the hardware file (`lastWrite`; the
model takes the `open`/`write` to succeed, recording what was written). -/

structure BuzzerState where
  buzzerOn : Bool
  timer : Option ℕ
  activeTimers : List ℕ
  nextTimerId : ℕ
  lastWrite : Option String
deriving DecidableEq, Repr

/-- State after `set_sources` (lines 285-296): output path registered with
value 0, no timer, buzzer off. -/
def BuzzerControl.initial : BuzzerState := ⟨false, none, [], 0, none⟩

/-- Lines 313-321, `_set_buzzer`: write `"1"`/`"0"` to the hardware file and
record the new state. -/
def BuzzerControl.set_buzzer (st : BuzzerState) (b : Bool) : BuzzerState :=
  { st with lastWrite := some (if b then "1" else "0"), buzzerOn := b }

/-- Lines 298-307, `_on_buzzer_state_changed`: writing 1 creates the 500 ms
blink timer and switches the output on, but only when no timer exists yet;
any other value cancels the timer, when one exists, and forces the output
off. -/
def BuzzerControl.on_buzzer_state_changed (st : BuzzerState) (value : ℤ) : BuzzerState :=
  if value = 1 then
    match st.timer with
    | none =>
      BuzzerControl.set_buzzer
        ⟨st.buzzerOn, some st.nextTimerId, st.nextTimerId :: st.activeTimers,
          st.nextTimerId + 1, st.lastWrite⟩ true
    | some _ => st
  else
    match st.timer with
    | some tid =>
      BuzzerControl.set_buzzer
        ⟨st.buzzerOn, none, st.activeTimers.erase tid, st.nextTimerId, st.lastWrite⟩ false
    | none => st

/-- Lines 309-311, `_on_timer`: toggle the output. -/
def BuzzerControl.on_timer (st : BuzzerState) : BuzzerState :=
  BuzzerControl.set_buzzer st (!st.buzzerOn)

/-- Coupling invariant: `_timer` tracks the scheduled gobject sources
exactly — either no timer is scheduled, or exactly the one whose id `_timer`
holds.  It holds in the initial state and is preserved by every callback. -/
def BuzzerTimerInv (st : BuzzerState) : Prop :=
  (st.timer = none ∧ st.activeTimers = []) ∨
  ∃ tid, st.timer = some tid ∧ st.activeTimers = [tid]

/-- The coupling invariant holds initially and is preserved by
`_on_buzzer_state_changed` and `_on_timer`, so it holds in every reachable
buzzer state. -/
lemma BuzzerControl.inv_preserved (st : BuzzerState) (value : ℤ) (h : BuzzerTimerInv st) :
    BuzzerTimerInv BuzzerControl.initial ∧
    BuzzerTimerInv (BuzzerControl.on_buzzer_state_changed st value) ∧
    BuzzerTimerInv (BuzzerControl.on_timer st) := by
  refine ⟨Or.inl ⟨rfl, rfl⟩, ?_, ?_⟩
  · unfold BuzzerControl.on_buzzer_state_changed
    rcases h with ⟨ht, ha⟩ | ⟨tid, ht, ha⟩ <;> rw [ht] <;> split_ifs <;>
      simp [BuzzerControl.set_buzzer, BuzzerTimerInv, ht, ha]
  · unfold BuzzerControl.on_timer
    rcases h with ⟨ht, ha⟩ | ⟨tid, ht, ha⟩ <;>
      simp [BuzzerControl.set_buzzer, BuzzerTimerInv, ht, ha]

/-- C8: from any state whose timer bookkeeping is consistent, writing 1 and
then immediately 0 to `/Buzzer/State` leaves zero scheduled timers, no
tracked timer, and `"0"` as the last token written to the hardware file; and
writing 1 while the blink timer already exists changes nothing (in
particular, it creates no second timer). -/
theorem BuzzerControl.one_then_zero
    (st : BuzzerState) (h : BuzzerTimerInv st) :
    ((BuzzerControl.on_buzzer_state_changed
        (BuzzerControl.on_buzzer_state_changed st 1) 0).activeTimers = [] ∧
     (BuzzerControl.on_buzzer_state_changed
        (BuzzerControl.on_buzzer_state_changed st 1) 0).timer = none ∧
     (BuzzerControl.on_buzzer_state_changed
        (BuzzerControl.on_buzzer_state_changed st 1) 0).lastWrite = some "0") ∧
    (∀ tid, st.timer = some tid → BuzzerControl.on_buzzer_state_changed st 1 = st) := by
  constructor
  · rcases h with ⟨ht, ha⟩ | ⟨tid, ht, ha⟩ <;>
      simp [BuzzerControl.on_buzzer_state_changed, BuzzerControl.set_buzzer, ht, ha]
  · intro tid ht
    simp [BuzzerControl.on_buzzer_state_changed, ht]

/-- Witness for C8 at a concrete input. -/
theorem BuzzerControl.one_then_zero_witness :
    BuzzerTimerInv BuzzerControl.initial ∧
    (((BuzzerControl.on_buzzer_state_changed
         (BuzzerControl.on_buzzer_state_changed BuzzerControl.initial 1) 0).activeTimers = [] ∧
      (BuzzerControl.on_buzzer_state_changed
         (BuzzerControl.on_buzzer_state_changed BuzzerControl.initial 1) 0).timer = none ∧
      (BuzzerControl.on_buzzer_state_changed
         (BuzzerControl.on_buzzer_state_changed BuzzerControl.initial 1) 0).lastWrite =
        some "0") ∧
     (∀ tid, BuzzerControl.initial.timer = some tid →
       BuzzerControl.on_buzzer_state_changed BuzzerControl.initial 1 =
         BuzzerControl.initial)) :=
  ⟨Or.inl ⟨rfl, rfl⟩,
    BuzzerControl.one_then_zero BuzzerControl.initial (Or.inl ⟨rfl, rfl⟩)⟩
